import Mathlib

/-!
Verification of the RAG-Chatbot-with-Memory core services against their
natural-language specification.  The Python services are shallowly embedded:
pure string manipulation becomes Lean functions over `String`/`List Char`,
the stateful services pass their state explicitly, external collaborators
(the OpenAI embedding and chat providers, the ChromaDB index engine, the
langchain text splitter) are function parameters or are modelled from the
specification of their contracts, and fallible code returns `Except`.
-/

/-! ## Python string primitives

`str.replace("\n", " ")` and `str.strip()` from `embedding_service.py` and
`document_processor.py`, embedded character-wise so every definition is
kernel-computable. -/

/-- Characters stripped by Python `str.strip()` (ASCII whitespace). -/
def isPySpace (c : Char) : Bool :=
  c = ' ' || c = '\t' || c = '\n' || c = '\r' || c = '\x0b' || c = '\x0c'

/-- Python `s.replace("\n", " ")`: every newline becomes one space. -/
def pyReplaceNewline (s : String) : String :=
  String.mk (s.data.map (fun c => if c = '\n' then ' ' else c))

/-- Python `s.strip()`: drop leading and trailing whitespace. -/
def pyStrip (s : String) : String :=
  String.mk (((s.data.dropWhile isPySpace).reverse.dropWhile isPySpace).reverse)

/-- The text cleaning both embedding entry points perform before calling the
provider: `text.replace("\n", " ").strip()`. -/
def cleanText (s : String) : String :=
  pyStrip (pyReplaceNewline s)

/-! ## Embedding service (`app/services/embedding_service.py`)

The OpenAI embeddings API is abstracted as a function `provider` from the
submitted text to its vector; the batch endpoint is order-preserving, so a
batch call submits the cleaned texts and receives `provider` of each.
Vectors use `ℚ` components. -/

/-- The one failure `EmbeddingService.generate_embedding` can raise itself:
`ValueError("Text cannot be empty")` on blank input. -/
inductive EmbError where
  | EmptyInput
deriving DecidableEq

/-- `EmbeddingService.generate_embedding`: clean the text, raise on empty,
otherwise submit the cleaned text.  The returned pair records the text
actually submitted to the provider together with the provider's vector. -/
def generate_embedding (provider : String → List ℚ) (text : String) :
    Except EmbError (String × List ℚ) :=
  let t := cleanText text
  if t = "" then Except.error EmbError.EmptyInput
  else Except.ok (t, provider t)

/-- `EmbeddingService.generate_embeddings_batch`: clean every text and submit
them all in one call — there is no emptiness check on this path.  The first
component is the batch input submitted to the provider, the second the
returned embeddings, in order. -/
def generate_embeddings_batch (provider : String → List ℚ) (texts : List String) :
    List String × List (List ℚ) :=
  let cleaned := texts.map cleanText
  (cleaned, cleaned.map provider)

/-- A concrete provider used only to instantiate witnesses. -/
def probeProvider : String → List ℚ := fun s => [(s.length : ℚ)]

/-- C4: `generate_embedding` fails with `EmptyInput` if and only if the text is
empty after normalization (newlines collapsed to spaces, whitespace trimmed);
for non-empty normalized text it submits exactly the normalized text to the
provider and returns the provider's vector. -/
theorem generate_embedding_empty_iff (provider : String → List ℚ) (text : String) :
    (generate_embedding provider text = Except.error EmbError.EmptyInput ↔ cleanText text = "") ∧
    (cleanText text ≠ "" →
      generate_embedding provider text = Except.ok (cleanText text, provider (cleanText text))) := by
  unfold generate_embedding
  by_cases h : cleanText text = "" <;> simp [h]

/-- Witness for C4 at a concrete input: "a\nb" normalizes to "a b", which is
non-empty and is what gets submitted. -/
theorem generate_embedding_empty_iff_witness :
    cleanText "a\nb" ≠ "" ∧
    generate_embedding probeProvider "a\nb" =
      Except.ok (cleanText "a\nb", probeProvider (cleanText "a\nb")) :=
  ⟨by decide, (generate_embedding_empty_iff probeProvider "a\nb").2 (by decide)⟩

/-- C9: batch/single consistency.  For texts that are all non-empty after
normalization, entry `i` of the batch result is exactly what the single-text
path returns for `texts[i]` — both paths clean the text identically and the
provider is order-preserving. -/
theorem batch_matches_single (provider : String → List ℚ) (texts : List String)
    (h : ∀ t ∈ texts, cleanText t ≠ "") (i : Nat) (hi : i < texts.length) :
    ∃ t v, texts.get? i = some t ∧
      (generate_embeddings_batch provider texts).2.get? i = some v ∧
      generate_embedding provider t = Except.ok (cleanText t, v) := by
  refine ⟨texts.get ⟨i, hi⟩, provider (cleanText (texts.get ⟨i, hi⟩)), ?_, ?_, ?_⟩
  · exact List.get?_eq_get hi
  · show ((texts.map cleanText).map provider).get? i = _
    rw [List.get?_map, List.get?_map, List.get?_eq_get hi]
    rfl
  · have hne := h _ (texts.get_mem i hi)
    unfold generate_embedding
    simp only [List.get_eq_getElem] at hne ⊢
    simp [hne]

/-- Witness for C9 at a concrete input: both texts of the batch are non-empty
after normalization and entry 1 agrees with the single-text path. -/
theorem batch_matches_single_witness :
    (∀ t ∈ ["a", "b\nc"], cleanText t ≠ "") ∧ 1 < (["a", "b\nc"] : List String).length ∧
    (∃ t v, (["a", "b\nc"] : List String).get? 1 = some t ∧
      (generate_embeddings_batch probeProvider ["a", "b\nc"]).2.get? 1 = some v ∧
      generate_embedding probeProvider t = Except.ok (cleanText t, v)) :=
  ⟨by decide, by decide,
    batch_matches_single probeProvider ["a", "b\nc"] (by decide) 1 (by decide)⟩

/-- C10: `generate_embeddings_batch` performs no emptiness check: it always
submits the normalized texts (possibly containing empty strings) to the
provider and never fails, even on input such as " \n " that is empty after
normalization — the very input on which the single-text path raises. -/
theorem batch_skips_empty_check (provider : String → List ℚ) :
    (∀ texts : List String, (generate_embeddings_batch provider texts).1 = texts.map cleanText) ∧
    (generate_embeddings_batch provider [" \n "]).1 = [""] ∧
    (generate_embeddings_batch provider [" \n "]).2 = [provider ""] ∧
    generate_embedding provider " \n " = Except.error EmbError.EmptyInput := by
  have hz : cleanText " \n " = "" := by decide
  refine ⟨fun texts => rfl, ?_, ?_, ?_⟩
  · show [cleanText " \n "] = [""]
    rw [hz]
  · show [provider (cleanText " \n ")] = [provider ""]
    rw [hz]
  · unfold generate_embedding
    simp [hz]

/-! ## Memory service (`app/services/memory_service.py`)

A user's stored record is its ordered list of interactions; timestamps do
not influence any claimed behavior and are omitted.  Python's negative
slicing `l[-k:]` is embedded by `pySliceLast`, including the `k = 0` corner
case in which Python returns the whole list. -/

/-- One entry of `history["messages"]`, as written by `add_interaction`. -/
structure Interaction where
  user : String
  assistant : String
  retrieved_docs : Nat
deriving DecidableEq

/-- Python `l[-k:]`: the last `k` elements — except that `l[-0:]` is all of
`l`, since `-0 == 0` and `l[0:]` is the whole list. -/
def pySliceLast {α : Type} (k : Nat) (l : List α) : List α :=
  if k = 0 then l else (l.reverse.take k).reverse

/-- `MemoryService.add_interaction` acting on one user's message list:
append the new interaction, then keep only the last `maxHistory` entries
whenever the bound is exceeded (`settings.max_conversation_history`). -/
def add_interaction (maxHistory : Nat) (messages : List Interaction)
    (i : Interaction) : List Interaction :=
  if (messages ++ [i]).length > maxHistory then pySliceLast maxHistory (messages ++ [i])
  else messages ++ [i]

lemma take_append_take {α : Type} (k : Nat) (m l : List α) :
    (m ++ l.take k).take k = (m ++ l).take k := by
  rw [List.take_append_eq_append_take, List.take_append_eq_append_take, List.take_take,
    Nat.min_eq_left (Nat.sub_le k m.length)]

lemma add_interaction_eq (k : Nat) (hk : k ≠ 0) (ms : List Interaction) (i : Interaction) :
    add_interaction k ms i = (((ms ++ [i]).reverse).take k).reverse := by
  unfold add_interaction pySliceLast
  by_cases h : (ms ++ [i]).length > k
  · rw [if_pos h, if_neg hk]
  · rw [if_neg h]
    push_neg at h
    rw [List.take_of_length_le (by simpa using h), List.reverse_reverse]

lemma foldl_add_interaction (k : Nat) (hk : k ≠ 0) (is : List Interaction) :
    ∀ start : List Interaction, start.length ≤ k →
      is.foldl (add_interaction k) start = (((start ++ is).reverse).take k).reverse := by
  induction is with
  | nil =>
    intro start hs
    rw [List.foldl_nil, List.append_nil, List.take_of_length_le (by simpa using hs),
      List.reverse_reverse]
  | cons i is ih =>
    intro start hs
    rw [List.foldl_cons, add_interaction_eq k hk,
      ih _ (by rw [List.length_reverse, List.length_take]; exact Nat.min_le_left _ _)]
    congr 1
    have h1 : ((((start ++ [i]).reverse).take k).reverse ++ is).reverse =
        is.reverse ++ ((start ++ [i]).reverse).take k := by
      rw [List.reverse_append, List.reverse_reverse]
    have h2 : (start ++ i :: is).reverse = is.reverse ++ (start ++ [i]).reverse := by
      rw [show start ++ i :: is = (start ++ [i]) ++ is by simp, List.reverse_append]
    rw [h1, h2, take_append_take]

/-- C1: sliding-window invariant of the conversation store.  Starting from the
lazily created empty record, after any sequence of `add_interaction` calls the
stored message list has length at most `maxHistory`, and it is exactly the
most recent `maxHistory` interactions in insertion order (oldest evicted
first).  `maxHistory` is positive, as the shipped configuration
(`max_conversation_history = 10`) is. -/
theorem add_interaction_sliding_window (maxHistory : Nat) (hpos : 0 < maxHistory)
    (is : List Interaction) :
    (is.foldl (add_interaction maxHistory) []).length ≤ maxHistory ∧
    is.foldl (add_interaction maxHistory) [] = (is.reverse.take maxHistory).reverse := by
  have h := foldl_add_interaction maxHistory (Nat.pos_iff_ne_zero.mp hpos) is [] (by simp)
  rw [List.nil_append] at h
  refine ⟨?_, h⟩
  rw [h, List.length_reverse, List.length_take]
  exact Nat.min_le_left _ _

/-- Witness for C1: three appends against a bound of 2 keep exactly the last
two interactions. -/
theorem add_interaction_sliding_window_witness :
    0 < 2 ∧
    ((([⟨"q1", "a1", 0⟩, ⟨"q2", "a2", 0⟩, ⟨"q3", "a3", 1⟩] : List Interaction).foldl
        (add_interaction 2) []).length ≤ 2 ∧
      ([⟨"q1", "a1", 0⟩, ⟨"q2", "a2", 0⟩, ⟨"q3", "a3", 1⟩] : List Interaction).foldl
          (add_interaction 2) [] =
        (([⟨"q1", "a1", 0⟩, ⟨"q2", "a2", 0⟩, ⟨"q3", "a3", 1⟩] :
            List Interaction).reverse.take 2).reverse) :=
  ⟨Nat.zero_lt_succ 1, add_interaction_sliding_window 2 (Nat.zero_lt_succ 1) _⟩

/-- `MemoryService.get_conversation_context` on one user's message list:
slice the last `nMessages` entries Python-style, return empty text if the
slice is empty, else render header plus alternating User/Assistant lines. -/
def get_conversation_context (messages : List Interaction) (nMessages : Nat) : String :=
  let msgs := pySliceLast nMessages messages
  if msgs.isEmpty then ""
  else msgs.foldl
    (fun acc m => acc ++ "User: " ++ m.user ++ "\nAssistant: " ++ m.assistant ++ "\n\n")
    "Previous conversation:\n"

/-- Modelled from the spec: `recent_context(user_id, n)` renders the last `n`
interactions (fewer if not available) as alternating User/Assistant lines in
chronological order, oldest first, and returns empty text if there is no
history to render. -/
def spec_recent_context (messages : List Interaction) (n : Nat) : String :=
  let lastN := (messages.reverse.take n).reverse
  if lastN.isEmpty then ""
  else lastN.foldl
    (fun acc m => acc ++ "User: " ++ m.user ++ "\nAssistant: " ++ m.assistant ++ "\n\n")
    "Previous conversation:\n"

/-- C7 counterexample: at `n = 0` with a non-empty history the code renders the
ENTIRE history (Python `l[-0:]` is the whole list), while the claimed behavior
(render exactly the last 0 interactions) yields empty text. -/
theorem get_conversation_context_zero_counterexample :
    get_conversation_context [⟨"hi", "hello", 0⟩] 0 =
        "Previous conversation:\nUser: hi\nAssistant: hello\n\n" ∧
    spec_recent_context [⟨"hi", "hello", 0⟩] 0 = "" ∧
    get_conversation_context [⟨"hi", "hello", 0⟩] 0 ≠
      spec_recent_context [⟨"hi", "hello", 0⟩] 0 := by
  refine ⟨?_, ?_, ?_⟩ <;> decide

/-- C7 amended: for every `n ≥ 1` (the service is only ever called with
`n ≥ 3`), `get_conversation_context` renders exactly the last `n` stored
interactions — fewer if fewer exist — as alternating User/Assistant lines in
chronological order, oldest first, and returns empty text when the user has
no history; at `n = 0` it instead renders the whole history. -/
theorem get_conversation_context_eq_spec (messages : List Interaction) (n : Nat)
    (h : 1 ≤ n) :
    get_conversation_context messages n = spec_recent_context messages n := by
  have hn : ¬(n = 0) := by omega
  unfold get_conversation_context spec_recent_context pySliceLast
  rw [if_neg hn]

/-- Witness for C7 at `n = 1`. -/
theorem get_conversation_context_eq_spec_witness :
    1 ≤ 1 ∧
    get_conversation_context [⟨"hi", "hello", 0⟩] 1 =
      spec_recent_context [⟨"hi", "hello", 0⟩] 1 :=
  ⟨le_refl 1, get_conversation_context_eq_spec [⟨"hi", "hello", 0⟩] 1 (le_refl 1)⟩

/-! ## Persistence of the memory service (`MemoryService._save_history`)

`_save_history` writes the record in place: `open(user_file, "w")` truncates
the file, then `json.dump` streams the serialization into it, and the `with`
block closes it on every exit path.  A crash may stop the process after any
of those primitive steps, so the observable disk states are: the previous
content (crash before the truncating open), the empty file (crash right
after the open), every proper prefix of the new serialization (crash during
the dump), and the full new serialization (write completed).
`oldContent` is the file content before the call, `newContent` the
serialization of the updated record. -/

/-- All disk states in which a crash can leave the user's file under the
in-place write of `_save_history`. -/
def save_history_crash_states (oldContent newContent : String) : List String :=
  oldContent :: (List.range (newContent.data.length + 1)).map
    (fun j => String.mk (newContent.data.take j))

/-- C8 counterexample: the append is NOT atomic.  A crash immediately after
`open(user_file, "w")` truncated the file leaves the empty file on disk,
which is neither the previous record nor the new one — the previously stored
valid record is not readable. -/
theorem save_history_not_atomic_counterexample :
    "" ∈ save_history_crash_states "oldrecord" "newrecord" ∧
    ("" : String) ≠ "oldrecord" ∧ ("" : String) ≠ "newrecord" := by
  refine ⟨?_, ?_, ?_⟩ <;> decide

/-- C8 amended: the `with`-block write completes in place — the new
serialization is on disk once the write finishes — but a crash between the
truncating open and completion leaves some (possibly empty) prefix of the
NEW serialization, so only the crash-before-open state preserves the
previous record; atomicity does not hold. -/
theorem save_history_inplace (oldContent newContent : String) :
    newContent ∈ save_history_crash_states oldContent newContent ∧
    ∀ s ∈ save_history_crash_states oldContent newContent,
      s = oldContent ∨ ∃ j, j ≤ newContent.data.length ∧ s = String.mk (newContent.data.take j) := by
  constructor
  · refine List.mem_cons_of_mem _ (List.mem_map.mpr ⟨newContent.data.length, ?_, ?_⟩)
    · exact List.mem_range.mpr (Nat.lt_succ_self _)
    · rw [List.take_length]
  · intro s hs
    rcases List.mem_cons.mp hs with h | h
    · exact Or.inl h
    · rcases List.mem_map.mp h with ⟨j, hj, rfl⟩
      exact Or.inr ⟨j, Nat.lt_succ_iff.mp (List.mem_range.mp hj), rfl⟩

/-- Witness for C8's amended theorem at concrete contents. -/
theorem save_history_inplace_witness :
    "newrecord" ∈ save_history_crash_states "oldrecord" "newrecord" ∧
    ∀ s ∈ save_history_crash_states "oldrecord" "newrecord",
      s = "oldrecord" ∨
        ∃ j, j ≤ "newrecord".data.length ∧ s = String.mk ("newrecord".data.take j) :=
  save_history_inplace "oldrecord" "newrecord"

/-! ## Vector store (`app/services/vector_store.py`)

The ChromaDB engine is an external collaborator (spec section 6): its `add`
validates vector dimensions against the collection's established dimension,
and its `query` returns up to `n_results` stored records ranked by ascending
distance under the collection's metric (cosine distance, bounded in [0,2]).
`VectorStore.add_documents` and `VectorStore.similarity_search` are the
repository code under test on top of that contract. -/

/-- Failures of the index-write contract. -/
inductive VSError where
  | LengthMismatch
  | DimensionMismatch
deriving DecidableEq

/-- One record persisted in the collection. -/
structure StoredRecord where
  vec : List ℚ
  content : String
  metadata : List (String × String)
deriving DecidableEq

/-- The ChromaDB collection: its established dimension (fixed by the first
vectors ever added) and its records. -/
structure Collection where
  dim : Option Nat
  records : List StoredRecord
deriving DecidableEq

/-- A document chunk as handed to the vector store. -/
structure Chunk where
  content : String
  metadata : List (String × String)
deriving DecidableEq

/-- Modelled from the spec: the external index engine's `add` (spec section
4.4 / 6, the code delegates dimension validation to ChromaDB).  It fails with
`DimensionMismatch` unless all added vectors share one dimension that matches
the collection's established dimension; the first vectors added to a fresh
collection establish its dimension. -/
def chromaAdd (c : Collection) (embeddings : List (List ℚ)) (documents : List String)
    (metadatas : List (List (String × String))) : Except VSError Collection :=
  match embeddings with
  | [] => Except.ok c
  | v :: _ =>
    let D := c.dim.getD v.length
    if embeddings.all (fun w => w.length == D) then
      Except.ok ⟨some D,
        c.records ++ (embeddings.zip (documents.zip metadatas)).map
          (fun p => ⟨p.1, p.2.1, p.2.2⟩)⟩
    else Except.error VSError.DimensionMismatch

/-- The dimension check the external engine applies to one `add` call. -/
def dimsOk (c : Collection) (embeddings : List (List ℚ)) : Bool :=
  match embeddings with
  | [] => true
  | v :: _ => embeddings.all (fun w => w.length == c.dim.getD v.length)

/-- `VectorStore.add_documents`: reject if the chunk and embedding counts
differ, otherwise derive the texts and metadata from the chunks (their counts
are equal to the chunk count by construction) and hand everything to the
engine's `add`; on success return the number of chunks. -/
def add_documents (c : Collection) (chunks : List Chunk) (embeddings : List (List ℚ)) :
    Except VSError (Collection × Nat) :=
  if chunks.length ≠ embeddings.length then Except.error VSError.LengthMismatch
  else
    match chromaAdd c embeddings (chunks.map (fun ch => ch.content))
        (chunks.map (fun ch => ch.metadata)) with
    | Except.error e => Except.error e
    | Except.ok c2 => Except.ok (c2, chunks.length)

/-- C5: the upsert contract of `add_documents`.  It fails with
`LengthMismatch` when the counts of vectors and of texts/metadata (one of
each per chunk) differ; with equal counts it fails with `DimensionMismatch`
exactly when the vectors do not all share the collection's established
dimension; and otherwise it returns the number of records added, the length
of the input. -/
theorem add_documents_contract (c : Collection) (chunks : List Chunk)
    (embeddings : List (List ℚ)) :
    (chunks.length ≠ embeddings.length →
      add_documents c chunks embeddings = Except.error VSError.LengthMismatch) ∧
    (chunks.length = embeddings.length → dimsOk c embeddings = false →
      add_documents c chunks embeddings = Except.error VSError.DimensionMismatch) ∧
    (chunks.length = embeddings.length → dimsOk c embeddings = true →
      ∃ c2, add_documents c chunks embeddings = Except.ok (c2, chunks.length)) := by
  refine ⟨fun hne => by rw [add_documents, if_pos hne], ?_, ?_⟩
  · intro hlen hdim
    rw [add_documents, if_neg (by omega)]
    cases embeddings with
    | nil => simp [dimsOk] at hdim
    | cons v rest =>
      rw [chromaAdd]
      rw [dimsOk] at hdim
      rw [if_neg (by simp [hdim])]
  · intro hlen hdim
    rw [add_documents, if_neg (by omega)]
    cases embeddings with
    | nil => exact ⟨c, by rw [chromaAdd]⟩
    | cons v rest =>
      rw [dimsOk] at hdim
      exact ⟨_, by rw [chromaAdd, if_pos hdim]⟩

/-- Witness for C5: adding one chunk with one 2-dimensional vector to a fresh
collection succeeds and reports one record added. -/
theorem add_documents_contract_witness :
    ((([⟨"c", []⟩] : List Chunk)).length = ([[(1 : ℚ), 2]] : List (List ℚ)).length) ∧
    dimsOk ⟨none, []⟩ [[(1 : ℚ), 2]] = true ∧
    ∃ c2, add_documents ⟨none, []⟩ [⟨"c", []⟩] [[(1 : ℚ), 2]] = Except.ok (c2, 1) :=
  ⟨rfl, by decide, (add_documents_contract ⟨none, []⟩ [⟨"c", []⟩] [[(1 : ℚ), 2]]).2.2 rfl (by decide)⟩

/-- Ranking order used by the external engine: ascending distance, the first
pair component being the distance of a candidate record. -/
def distLE (a b : ℚ × StoredRecord) : Prop := a.1 ≤ b.1

instance : DecidableRel distLE := fun a b => inferInstanceAs (Decidable (a.1 ≤ b.1))

instance : IsTotal (ℚ × StoredRecord) distLE := ⟨fun a b => le_total a.1 b.1⟩

instance : IsTrans (ℚ × StoredRecord) distLE := ⟨fun _ _ _ hab hbc => le_trans hab hbc⟩

/-- Modelled from the spec: the external engine's `query` (spec sections 4.4
and 6): it returns up to `nResults` stored records ranked by ascending
distance to the query, ties in engine-internal order.  `dist` is the
collection's distance metric applied to the query embedding. -/
def chromaQuery (dist : List ℚ → ℚ) (recs : List StoredRecord) (nResults : Nat) :
    List (ℚ × StoredRecord) :=
  (List.insertionSort distLE (recs.map (fun r => (dist r.vec, r)))).take nResults

/-- One entry of the list `VectorStore.similarity_search` returns. -/
structure RetrievalResult where
  content : String
  metadata : List (String × String)
  relevance_score : ℚ
deriving DecidableEq

/-- `VectorStore.similarity_search`: query the engine and convert each
reported distance to a relevance score via `1 - distance`. -/
def similarity_search (dist : List ℚ → List ℚ → ℚ) (c : Collection)
    (queryEmbedding : List ℚ) (nResults : Nat) : List RetrievalResult :=
  (chromaQuery (dist queryEmbedding) c.records nResults).map
    (fun p => ⟨p.2.content, p.2.metadata, 1 - p.1⟩)

/-- C6: `similarity_search` returns at most `nResults` results, in descending
relevance order (ascending distance), each result's relevance score is
exactly `1 -` its reported distance on some stored record, and when the
metric is bounded in [0,2] (cosine distance) every relevance lies in
[-1,1]. -/
theorem similarity_search_contract (dist : List ℚ → List ℚ → ℚ) (c : Collection)
    (q : List ℚ) (k : Nat)
    (hb : ∀ r ∈ c.records, 0 ≤ dist q r.vec ∧ dist q r.vec ≤ 2) :
    (similarity_search dist c q k).length ≤ k ∧
    ((similarity_search dist c q k).map (fun res => res.relevance_score)).Sorted
      (fun a b => b ≤ a) ∧
    (∀ res ∈ similarity_search dist c q k, ∃ r ∈ c.records,
      res.content = r.content ∧ res.metadata = r.metadata ∧
      res.relevance_score = 1 - dist q r.vec ∧
      -1 ≤ res.relevance_score ∧ res.relevance_score ≤ 1) := by
  refine ⟨?_, ?_, ?_⟩
  · rw [similarity_search, List.length_map, chromaQuery, List.length_take]
    exact Nat.min_le_left _ _
  · have hsorted : (List.insertionSort distLE
        (c.records.map (fun r => (dist q r.vec, r)))).Sorted distLE :=
      List.sorted_insertionSort distLE _
    have htake : (chromaQuery (dist q) c.records k).Sorted distLE :=
      List.Pairwise.sublist (List.take_sublist k _) hsorted
    rw [similarity_search, List.map_map]
    refine List.pairwise_map.mpr (htake.imp ?_)
    intro a b hab
    exact sub_le_sub_left hab 1
  · intro res hres
    rcases List.mem_map.mp hres with ⟨p, hp, rfl⟩
    have hp2 : p ∈ List.insertionSort distLE (c.records.map (fun r => (dist q r.vec, r))) :=
      (List.take_sublist k _).subset hp
    have hp3 : p ∈ c.records.map (fun r => (dist q r.vec, r)) :=
      (List.perm_insertionSort distLE _).subset hp2
    rcases List.mem_map.mp hp3 with ⟨r, hr, rfl⟩
    rcases hb r hr with ⟨h0, h2⟩
    exact ⟨r, hr, rfl, rfl, rfl, by simp; linarith, by simp; linarith⟩

/-- A fixed query embedding and collection for the C6 witness; the metric
assigns distance 1 to the single stored record. -/
def unitDist : List ℚ → List ℚ → ℚ := fun _ _ => 1

/-- A one-record collection used by witnesses. -/
def oneRecordCollection : Collection := ⟨some 1, [⟨[0], "doc", [("filename", "f.txt")]⟩]⟩

/-- Witness for C6 on the one-record collection with the unit metric. -/
theorem similarity_search_contract_witness :
    (∀ r ∈ oneRecordCollection.records,
      0 ≤ unitDist [0] r.vec ∧ unitDist [0] r.vec ≤ 2) ∧
    ((similarity_search unitDist oneRecordCollection [0] 2).length ≤ 2 ∧
      ((similarity_search unitDist oneRecordCollection [0] 2).map
        (fun res => res.relevance_score)).Sorted (fun a b => b ≤ a) ∧
      (∀ res ∈ similarity_search unitDist oneRecordCollection [0] 2,
        ∃ r ∈ oneRecordCollection.records,
          res.content = r.content ∧ res.metadata = r.metadata ∧
          res.relevance_score = 1 - unitDist [0] r.vec ∧
          -1 ≤ res.relevance_score ∧ res.relevance_score ≤ 1)) :=
  ⟨by decide, similarity_search_contract unitDist oneRecordCollection [0] 2 (by decide)⟩

/-! ## Document processor (`app/services/document_processor.py`)

File-format extraction is an external collaborator: a source file is
embedded as its path suffix plus the outcome of `_extract_text` on it —
`none` when extraction raised, `some content` when it produced `content`.
langchain's `RecursiveCharacterTextSplitter.split_text` is the parameter
`split`. -/

/-- Python `str.lower()`, character-wise. -/
def pyLower (s : String) : String := String.mk (s.data.map Char.toLower)

/-- A file found by `directory_path.rglob` together with what
`_extract_text` would do on it. -/
structure SrcFile where
  name : String
  ext : String
  extraction : Option String
deriving DecidableEq

/-- The extensions `load_documents` accepts. -/
def supportedExtensions : List String := [".txt", ".pdf", ".docx"]

/-- A loaded document before chunking. -/
structure RawDocument where
  content : String
  metadata : List (String × String)
deriving DecidableEq

/-- `DocumentProcessor.load_documents`: keep files with a supported
extension whose extraction succeeds with content that is non-empty after
stripping; extraction errors are caught per file and skipped. -/
def load_documents (files : List SrcFile) : List RawDocument :=
  files.filterMap (fun f =>
    if supportedExtensions.contains (pyLower f.ext) then
      match f.extraction with
      | none => none
      | some content =>
        if pyStrip content ≠ "" then
          some ⟨content, [("source", f.name), ("filename", f.name), ("file_type", f.ext)]⟩
        else none
    else none)

/-- `DocumentProcessor.chunk_documents`: split each document's content with
the (external) splitter and attach the parent metadata plus chunk index and
count. -/
def chunk_documents (split : String → List String) (docs : List RawDocument) :
    List Chunk :=
  docs.bind (fun d =>
    (split d.content).enum.map (fun p =>
      ⟨p.2, d.metadata ++ [("chunk_id", toString p.1),
        ("total_chunks", toString (split d.content).length)]⟩))

/-! ## Ingestion pipeline (`RAGService.index_documents`)

The pipeline is loading → chunking → one batch embedding call → one index
add call; the log records the embedding-batch inputs submitted and the
number of index add calls, so that "contacts the embedding/index client" is
observable. -/

/-- Calls the ingestion run issues to the external clients. -/
structure IngestLog where
  embedBatchCalls : List (List String)
  indexAddCalls : Nat
deriving DecidableEq

/-- `RAGService.index_documents`: load, chunk, embed all chunk texts in one
batch call, store everything with one `add_documents` call, and return the
chunk count.  Both client calls are unconditional. -/
def index_documents (provider : String → List ℚ) (split : String → List String)
    (c : Collection) (files : List SrcFile) :
    Except VSError (Collection × Nat) × IngestLog :=
  let documents := load_documents files
  let chunks := chunk_documents split documents
  let texts := chunks.map (fun ch => ch.content)
  let batch := generate_embeddings_batch provider texts
  (add_documents c chunks batch.2, ⟨[batch.1], 1⟩)

/-- A trivial splitter for concrete runs. -/
def idSplit : String → List String := fun s => [s]

/-- C2 counterexample: on a directory with no files at all (so certainly no
file yields non-empty content) `index_documents` does return 0, but it still
issues one embedding-batch call and one index add call — the claim that no
client is contacted is false. -/
theorem index_documents_empty_still_calls_clients :
    (index_documents probeProvider idSplit ⟨none, []⟩ []).2.embedBatchCalls ≠ [] ∧
    (index_documents probeProvider idSplit ⟨none, []⟩ []).2.indexAddCalls ≠ 0 ∧
    (index_documents probeProvider idSplit ⟨none, []⟩ []).1 = Except.ok (⟨none, []⟩, 0) := by
  refine ⟨by decide, by decide, rfl⟩

/-- C2 amended: for every directory in which no file yields non-empty
extracted content, `index_documents` returns 0 — but it still issues exactly
one embedding-batch call, with the empty list of texts, and one index add
call, with empty inputs (which the modelled engine accepts as a no-op). -/
theorem index_documents_no_content (provider : String → List ℚ)
    (split : String → List String) (c : Collection) (files : List SrcFile)
    (h : ∀ f ∈ files, pyStrip (f.extraction.getD "") = "") :
    load_documents files = [] ∧
    (index_documents provider split c files).1 = Except.ok (c, 0) ∧
    (index_documents provider split c files).2 = ⟨[[]], 1⟩ := by
  have hload : load_documents files = [] := by
    rw [load_documents, List.filterMap_eq_nil]
    intro f hf
    have hstrip := h f hf
    by_cases hext : supportedExtensions.contains (pyLower f.ext)
    · rw [if_pos hext]
      cases hx : f.extraction with
      | none => rfl
      | some content =>
        rw [hx] at hstrip
        simp only [Option.getD_some] at hstrip
        simp [hstrip]
    · rw [if_neg hext]
  refine ⟨hload, ?_, ?_⟩
  · show (add_documents c (chunk_documents split (load_documents files)) _) = _
    rw [hload]
    rfl
  · show (⟨[(generate_embeddings_batch provider
      ((chunk_documents split (load_documents files)).map (fun ch => ch.content))).1], 1⟩ :
        IngestLog) = _
    rw [hload]
    rfl

/-- A file whose extracted content is blank, for the C2 witness. -/
def blankFile : SrcFile := ⟨"blank.txt", ".txt", some "  \n "⟩

/-- Witness for C2's amended theorem on a directory holding one blank file. -/
theorem index_documents_no_content_witness :
    (∀ f ∈ [blankFile], pyStrip (f.extraction.getD "") = "") ∧
    (load_documents [blankFile] = [] ∧
      (index_documents probeProvider idSplit ⟨none, []⟩ [blankFile]).1 =
        Except.ok (⟨none, []⟩, 0) ∧
      (index_documents probeProvider idSplit ⟨none, []⟩ [blankFile]).2 = ⟨[[]], 1⟩) :=
  ⟨by decide, index_documents_no_content probeProvider idSplit ⟨none, []⟩ [blankFile] (by decide)⟩

/-! ## Query pipeline (`RAGService.query` and helpers)

The chat completion endpoint is the parameter `gen` (system message, user
message ↦ answer); Python's `"%.2f"` float formatting of the relevance score
is the parameter `fmt`.  The log records every generation call with the
exact system and user messages submitted, so that "the Generation Client is
called" and "the assembled prompt" are both observable. -/

/-- `dict.get(key, default)` on the metadata mapping. -/
def metaGet (m : List (String × String)) (key dflt : String) : String :=
  match m.find? (fun p => p.1 == key) with
  | some p => p.2
  | none => dflt

/-- `RAGService._build_context`: a fixed header, then one block per document
numbered from 1 with source filename and formatted relevance score.  With no
documents the loop body never runs and the context is exactly the header. -/
def build_context (fmt : ℚ → String) (documents : List RetrievalResult) : String :=
  (documents.foldl
    (fun (p : String × Nat) doc =>
      (p.1 ++ "[Document " ++ toString p.2 ++ "] (Source: " ++
        metaGet doc.metadata "filename" "unknown" ++ ", Relevance: " ++
        fmt doc.relevance_score ++ ")\n" ++ doc.content ++ "\n\n", p.2 + 1))
    ("Relevant information from documents:\n\n", 1)).1

/-- The fixed system message of `RAGService._generate_response`. -/
def system_message : String :=
  "You are a helpful AI assistant with access to a knowledge base. \nYour task is to answer questions based on the provided context and conversation history.\n\nGuidelines:\n1. Answer based primarily on the provided context\n2. If the context doesn\x27t contain relevant information, say so clearly\n3. Cite sources when possible (mention document names)\n4. Maintain conversation continuity using the history\n5. Be concise but complete\n6. If asked about previous messages, refer to the conversation history"

/-- The user message template of `RAGService._generate_response`. -/
def user_prompt (conversationHistory context query : String) : String :=
  conversationHistory ++ "\n\nContext from knowledge base:\n" ++ context ++
    "\n\nCurrent question: " ++ query ++
    "\n\nPlease provide a helpful answer based on the context above."

/-- Calls the query pipeline issues to the generation client. -/
structure QueryLog where
  generationCalls : List (String × String)
deriving DecidableEq

/-- Everything one `RAGService.query` run produces: the answer, the
retrieved documents, the user's updated message list, and the call log. -/
structure QueryOutcome where
  answer : String
  retrieved : List RetrievalResult
  messages : List Interaction
  log : QueryLog
deriving DecidableEq

/-- `RAGService.query`: embed the query (propagating `EmptyInput`), retrieve,
load conversation context (`n_messages = 3`), assemble the prompt, call the
generation client unconditionally, and append the interaction to memory. -/
def rag_query (provider : String → List ℚ) (dist : List ℚ → List ℚ → ℚ)
    (gen : String → String → String) (fmt : ℚ → String) (maxHistory : Nat)
    (c : Collection) (messages : List Interaction) (userQuery : String)
    (nResults : Nat) : Except EmbError QueryOutcome :=
  match generate_embedding provider userQuery with
  | Except.error e => Except.error e
  | Except.ok qe =>
    let retrieved := similarity_search dist c qe.2 nResults
    let conversationContext := get_conversation_context messages 3
    let context := build_context fmt retrieved
    let prompt := user_prompt conversationContext context userQuery
    let answer := gen system_message prompt
    Except.ok ⟨answer, retrieved,
      add_interaction maxHistory messages ⟨userQuery, answer, retrieved.length⟩,
      ⟨[(system_message, prompt)]⟩⟩

/-- Decides whether `pat` occurs as a contiguous substring of `s`
(character lists). -/
def isSubList (pat : List Char) : List Char → Bool
  | [] => pat.isEmpty
  | c :: rest => ((c :: rest).take pat.length == pat) || isSubList pat rest

/-- Negation and absence markers: any English sentence explicitly stating
that no relevant context was found contains at least one of these. -/
def absenceMarkers : List String :=
  ["No", "not", "no ", "n\x27t", "found", "Found", "empty", "Empty", "none",
    "None", "missing", "Missing", "without", "Without", "lack", "Lack",
    "absen", "Absen", "zero", "Zero", "unavailable"]

/-- `true` when the text contains some negation or absence marker. -/
def mentionsAbsence (s : String) : Bool :=
  absenceMarkers.any (fun p => isSubList p.data s.data)

/-- A fixed generation client and score format for concrete runs. -/
def constGen : String → String → String := fun _ _ => "ok"

/-- A fixed relevance-score formatter for concrete runs. -/
def emptyFmt : ℚ → String := fun _ => ""

/-- The user message assembled by a query against an empty index with empty
history: the fixed template around the bare context header. -/
def emptyIndexPrompt : String :=
  "\n\nContext from knowledge base:\nRelevant information from documents:\n\n\n\nCurrent question: What is AI?\n\nPlease provide a helpful answer based on the context above."

/-- C3 counterexample: querying an empty index does return an empty retrieved
sequence and still calls the generation client — but the assembled prompt
does NOT state that no relevant context was found: it is the ordinary
template whose context section is the bare header followed by zero passages,
and it contains no negation or absence marker at all (the fixed system
message is independent of retrieval, so it cannot state a retrieval
outcome). -/
theorem rag_query_empty_index_counterexample :
    rag_query probeProvider unitDist constGen emptyFmt 10 ⟨none, []⟩ [] "What is AI?" 5 =
      Except.ok ⟨"ok", [], [⟨"What is AI?", "ok", 0⟩],
        ⟨[(system_message, emptyIndexPrompt)]⟩⟩ ∧
    mentionsAbsence emptyIndexPrompt = false := by
  exact ⟨rfl, by decide⟩

/-- C3 amended: for every query that is non-empty after normalization,
against an empty index the pipeline returns the empty retrieved sequence and
still calls the generation client exactly once rather than short-circuiting —
but the assembled user prompt is just the fixed template around the bare
context header (no explicit statement that no context was found). -/
theorem rag_query_empty_index (provider : String → List ℚ)
    (dist : List ℚ → List ℚ → ℚ) (gen : String → String → String) (fmt : ℚ → String)
    (maxHistory : Nat) (d : Option Nat) (messages : List Interaction)
    (userQuery : String) (nResults : Nat) (hq : cleanText userQuery ≠ "") :
    rag_query provider dist gen fmt maxHistory ⟨d, []⟩ messages userQuery nResults =
      Except.ok ⟨gen system_message (user_prompt (get_conversation_context messages 3)
          "Relevant information from documents:\n\n" userQuery),
        [],
        add_interaction maxHistory messages
          ⟨userQuery, gen system_message (user_prompt (get_conversation_context messages 3)
            "Relevant information from documents:\n\n" userQuery), 0⟩,
        ⟨[(system_message, user_prompt (get_conversation_context messages 3)
            "Relevant information from documents:\n\n" userQuery)]⟩⟩ := by
  have h1 : generate_embedding provider userQuery =
      Except.ok (cleanText userQuery, provider (cleanText userQuery)) := by
    unfold generate_embedding
    simp [hq]
  rw [rag_query, h1]
  simp [similarity_search, chromaQuery, build_context]

/-- Witness for C3's amended theorem at a concrete query. -/
theorem rag_query_empty_index_witness :
    cleanText "What is AI?" ≠ "" ∧
    rag_query probeProvider unitDist constGen emptyFmt 10 ⟨none, []⟩ [] "What is AI?" 5 =
      Except.ok ⟨constGen system_message (user_prompt (get_conversation_context [] 3)
          "Relevant information from documents:\n\n" "What is AI?"),
        [],
        add_interaction 10 []
          ⟨"What is AI?", constGen system_message (user_prompt (get_conversation_context [] 3)
            "Relevant information from documents:\n\n" "What is AI?"), 0⟩,
        ⟨[(system_message, user_prompt (get_conversation_context [] 3)
            "Relevant information from documents:\n\n" "What is AI?")]⟩⟩ :=
  ⟨by decide, rag_query_empty_index probeProvider unitDist constGen emptyFmt 10 none []
    "What is AI?" 5 (by decide)⟩
